import Mathlib

/-
Verification of the EduPredict-AI model lifecycle engine and frontend helpers.

The repository ships a React frontend (src/frontend) together with the
specification of a model lifecycle engine (training, champion selection,
versioned artifact store, attribution, drift monitoring, inference).  The
engine itself is not part of the checked-in sources, so its data model and
operations are modelled here from the specification text; the frontend
helpers (axios response interceptor, auth reducer, RiskBadge component) are
embedded directly from their JavaScript sources.

Real-valued metrics are embedded as rationals; concrete constants are spelled
with `mkRat` (for example `mkRat 7 10` for the 0.70 drift threshold) so that
all concrete facts are decidable.
-/

namespace EduPredict

/-- Modelled from the spec: `EvaluationReport` (§3) with metric fields
{accuracy, roc_auc, f1_at_risk, f1_macro, precision, recall,
confusion_matrix}; the engine computing it is absent from the sources.
The spec fields `f1_macro` and `recall` are spelled `f1Macro` and
`recallScore` here. -/
structure EvaluationReport where
  accuracy : ℚ := 0
  roc_auc : ℚ := 0
  f1_at_risk : ℚ := 0
  f1Macro : ℚ := 0
  precision : ℚ := 0
  recallScore : ℚ := 0
  confusion_matrix : List (List Nat) := []
  deriving DecidableEq

/-- Modelled from the spec: ChampionSelector's ranking test (§4.2) — a
challenger strictly beats the incumbent when its `f1_at_risk` is higher, or
the `f1_at_risk` values tie and its `accuracy` is higher.  On a full tie the
incumbent (the earlier configuration index) is kept. -/
def beats (n b : EvaluationReport) : Bool :=
  decide (b.f1_at_risk < n.f1_at_risk) ||
    (decide (n.f1_at_risk = b.f1_at_risk) && decide (b.accuracy < n.accuracy))

/-- Modelled from the spec: the left-to-right scan underlying ChampionSelector
(§4.2); `idx` is the configuration index of the next candidate in the list and
`best` is the best (index, report) pair seen so far. -/
def selectFrom (idx : Nat) (best : Nat × EvaluationReport) :
    List EvaluationReport → Nat × EvaluationReport
  | [] => best
  | r :: rest => selectFrom (idx + 1) (if beats r best.2 then (idx, r) else best) rest

/-- Modelled from the spec: ChampionSelector (§4.2) — ranks the candidates'
evaluation reports by `f1_at_risk` descending, then `accuracy` descending,
then earliest configuration index, and returns the winning (index, report)
pair; `none` on an empty candidate set. -/
def selectChampion : List EvaluationReport → Option (Nat × EvaluationReport)
  | [] => none
  | r :: rest => some (selectFrom 1 (0, r) rest)

/-- The spec's ranking order on (configuration index, report) pairs:
`m` is ranked at least as high as `c` when `m` has strictly larger
`f1_at_risk`, or ties on `f1_at_risk` with strictly larger `accuracy`,
or ties on both with an index no later than `c`'s. -/
def dominates (m c : Nat × EvaluationReport) : Prop :=
  c.2.f1_at_risk < m.2.f1_at_risk ∨
    (m.2.f1_at_risk = c.2.f1_at_risk ∧
      (c.2.accuracy < m.2.accuracy ∨ (m.2.accuracy = c.2.accuracy ∧ m.1 ≤ c.1)))

instance (m c : Nat × EvaluationReport) : Decidable (dominates m c) := by
  unfold dominates
  infer_instance

/-- Modelled from the spec: the explicit tie-break scenario of §8 —
F1_at_risk = [0.81, 0.85, 0.85, 0.70] with accuracies [0.90, 0.88, 0.92, 0.95]. -/
def rep0 : EvaluationReport := { accuracy := mkRat 90 100, f1_at_risk := mkRat 81 100 }

/-- Scenario candidate 1: f1_at_risk 0.85, accuracy 0.88. -/
def rep1 : EvaluationReport := { accuracy := mkRat 88 100, f1_at_risk := mkRat 85 100 }

/-- Scenario candidate 2: f1_at_risk 0.85, accuracy 0.92. -/
def rep2 : EvaluationReport := { accuracy := mkRat 92 100, f1_at_risk := mkRat 85 100 }

/-- Scenario candidate 3: f1_at_risk 0.70, accuracy 0.95. -/
def rep3 : EvaluationReport := { accuracy := mkRat 95 100, f1_at_risk := mkRat 70 100 }

/-- The candidate set of the §8 tie-break scenario, in configuration order. -/
def scenarioReports : List EvaluationReport := [rep0, rep1, rep2, rep3]

/-- Modelled from the spec: the champion model's class-probability output over
the three performance categories (§4.7); the fitted classifiers themselves are
absent from the sources, so a model is embedded as its probability function. -/
structure Probs where
  high : ℚ
  medium : ℚ
  atRisk : ℚ
  deriving DecidableEq

/-- Modelled from the spec: the label set {High, Medium, At Risk} (§3). -/
inductive Category
  | High
  | Medium
  | AtRisk
  deriving DecidableEq

/-- Modelled from the spec: attribution impact buckets HIGH/MEDIUM/LOW (§3). -/
inductive Impact
  | HIGH
  | MEDIUM
  | LOW
  deriving DecidableEq

/-- Modelled from the spec: FactorAttribution (§3) — feature name, raw value,
signed impact magnitude (`contribution`), and impact bucket (`impact`). -/
structure FactorAttribution where
  feature : String
  value : ℚ
  contribution : ℚ
  impact : Impact
  deriving DecidableEq

/-- Modelled from the spec: one entry of the FeatureContract (§3) — a required
feature name with its valid range. -/
structure FeatureSpec where
  name : String
  lo : ℚ
  hi : ℚ
  deriving DecidableEq

/-- Modelled from the spec: FeatureContract — the canonical schema (§2). -/
abbrev FeatureContract := List FeatureSpec

/-- Modelled from the spec: FeatureVector — an ordered mapping from feature
name to (encoded) numeric value (§3). -/
abbrev FeatureVector := List (String × ℚ)

/-- Modelled from the spec: the winning candidate handed to ArtifactStore
(§4.2/§4.3): model behaviour (probability and contribution functions), the
attribution bucket thresholds calibrated for it (§4.4), its evaluation report
and training timestamp.  The version is assigned by the store at promotion. -/
structure CandidateModel where
  model_name : String
  probs : FeatureVector → Probs
  contrib : String → ℚ → ℚ
  hiThresh : ℚ
  medThresh : ℚ
  report : EvaluationReport
  trained_at : Nat

/-- Modelled from the spec: ChampionArtifact (§3) — the currently served unit
with its monotonic `model_version`. -/
structure ChampionArtifact where
  model_name : String
  model_version : Nat
  probs : FeatureVector → Probs
  contrib : String → ℚ → ℚ
  hiThresh : ℚ
  medThresh : ℚ
  report : EvaluationReport
  trained_at : Nat

/-- Modelled from the spec: ArtifactStore (§4.3) — at most one current
artifact plus the last version number handed out. -/
structure ArtifactStore where
  current : Option ChampionArtifact
  lastVersion : Nat

/-- The store before any promotion has occurred. -/
def emptyStore : ArtifactStore := { current := none, lastVersion := 0 }

/-- Modelled from the spec: `promote` (§4.3) — constructs the new artifact with
the next version number and swaps it in as current; returns the new store and
the assigned version. -/
def promote (s : ArtifactStore) (c : CandidateModel) : ArtifactStore × Nat :=
  let v := s.lastVersion + 1
  ({ current := some
      { model_name := c.model_name, model_version := v, probs := c.probs,
        contrib := c.contrib, hiThresh := c.hiThresh, medThresh := c.medThresh,
        report := c.report, trained_at := c.trained_at },
     lastVersion := v }, v)

/-- The versions assigned by a sequence of successful promotions, in order. -/
def promoteAll (s : ArtifactStore) : List CandidateModel → List Nat
  | [] => []
  | c :: cs => (promote s c).2 :: promoteAll (promote s c).1 cs

/-- Modelled from the spec: ChampionSelector failure mode (§4.2). -/
inductive SelectErr
  | noViableCandidate
  deriving DecidableEq

/-- Modelled from the spec: ChampionSelector with the configured minimum
`f1_at_risk` floor (§4.2) — fails with NoViableCandidate when every
candidate's `f1_at_risk` is below the floor (or there are no candidates). -/
def selectWithFloor (floor : ℚ) (reports : List EvaluationReport) :
    Except SelectErr (Nat × EvaluationReport) :=
  if reports.all fun r => decide (r.f1_at_risk < floor) then
    Except.error SelectErr.noViableCandidate
  else
    match selectChampion reports with
    | some p => Except.ok p
    | none => Except.error SelectErr.noViableCandidate

/-- Modelled from the spec: one training run's effect on the store (§4.2, §7):
on NoViableCandidate the prior artifact stays current and the error is
surfaced; otherwise the winner (turned into a candidate model by `mk`) is
promoted. -/
def runTraining (floor : ℚ) (reports : List EvaluationReport)
    (mk : Nat × EvaluationReport → CandidateModel) (s : ArtifactStore) :
    ArtifactStore × Except SelectErr Nat :=
  match selectWithFloor floor reports with
  | Except.error e => (s, Except.error e)
  | Except.ok p => ((promote s (mk p)).1, Except.ok (promote s (mk p)).2)

/-- Modelled from the spec: serving-time error taxonomy (§7) — ModelUnavailable
for a request with no current artifact, SchemaMismatch per row. -/
inductive ServingErr
  | modelUnavailable
  | schemaMismatch
  deriving DecidableEq

/-- Feature lookup by name in a feature vector (first match). -/
def lookupFeature : FeatureVector → String → Option ℚ
  | [], _ => none
  | (m, x) :: t, n => if m = n then some x else lookupFeature t n

/-- Modelled from the spec: FeatureContract validation (§3, §4.7) — every
required feature present and inside its valid range, and no out-of-contract
fields. -/
def validate (c : FeatureContract) (v : FeatureVector) : Bool :=
  (c.all fun sp =>
    match lookupFeature v sp.name with
    | none => false
    | some x => decide (sp.lo ≤ x) && decide (x ≤ sp.hi)) &&
  (v.all fun p => c.any fun sp => decide (sp.name = p.1))

/-- Modelled from the spec: impact bucketing (§4.4) against the artifact's own
calibrated magnitude thresholds. -/
def bucketOf (a : ChampionArtifact) (m : ℚ) : Impact :=
  if a.hiThresh ≤ m then Impact.HIGH
  else if a.medThresh ≤ m then Impact.MEDIUM
  else Impact.LOW

/-- Ordering used by AttributionEngine: absolute contribution descending. -/
def factorOrder (f g : FactorAttribution) : Prop :=
  abs g.contribution ≤ abs f.contribution

instance : DecidableRel factorOrder :=
  fun f g => inferInstanceAs (Decidable (abs g.contribution ≤ abs f.contribution))

instance : IsTotal FactorAttribution factorOrder :=
  ⟨fun _ _ => le_total _ _⟩

instance : IsTrans FactorAttribution factorOrder :=
  ⟨fun _ _ _ h1 h2 => le_trans h2 h1⟩

/-- Modelled from the spec: AttributionEngine (§4.4) — per-feature signed
contributions from the artifact's additive contribution function, ranked by
absolute contribution descending, kept to the top 3, each bucketed with the
artifact's thresholds. -/
def topFactors (a : ChampionArtifact) (v : FeatureVector) : List FactorAttribution :=
  (List.insertionSort factorOrder
    (v.map fun p =>
      { feature := p.1, value := p.2, contribution := a.contrib p.1 p.2,
        impact := bucketOf a (abs (a.contrib p.1 p.2)) })).take 3

/-- Modelled from the spec: `performance_category` is the arg-max class of the
probability vector (§4.7); ties resolve toward High then Medium. -/
def predictedCategory (p : Probs) : Category :=
  if p.medium ≤ p.high ∧ p.atRisk ≤ p.high then Category.High
  else if p.atRisk ≤ p.medium then Category.Medium
  else Category.AtRisk

/-- Modelled from the spec: `confidence` is the probability of the predicted
class (§4.7). -/
def confidenceOf (p : Probs) : ℚ :=
  match predictedCategory p with
  | Category.High => p.high
  | Category.Medium => p.medium
  | Category.AtRisk => p.atRisk

/-- Modelled from the spec: InterventionMapper rule table (§4.6), keyed by the
attributed feature family; a feature not covered by a rule contributes no
recommendation. -/
def interventionFor (cat : Category) (f : FactorAttribution) : Option String :=
  match cat, f.feature with
  | _, "attendance_pct" => some "Schedule attendance counseling"
  | _, "study_hours" => some "Recommend study-skills workshop"
  | _, "backlogs" => some "Flag for academic probation review"
  | _, _ => none

/-- Modelled from the spec: InterventionMapper (§4.6) — pure mapping from
(category, top factors) to an ordered recommendation list. -/
def mapInterventions (cat : Category) (fs : List FactorAttribution) : List String :=
  fs.filterMap (interventionFor cat)

/-- Modelled from the spec: PredictionResult (§3). -/
structure PredictionResult where
  dropout_probability : ℚ
  performance_category : Category
  confidence : ℚ
  top_factors : List FactorAttribution
  recommended_interventions : List String
  deriving DecidableEq

/-- Modelled from the spec: the per-vector serving pipeline (§4.7) after
validation — probabilities, arg-max category, dropout probability as the
At-Risk mass, confidence, attribution and interventions. -/
def makePrediction (a : ChampionArtifact) (v : FeatureVector) : PredictionResult :=
  { dropout_probability := (a.probs v).atRisk,
    performance_category := predictedCategory (a.probs v),
    confidence := confidenceOf (a.probs v),
    top_factors := topFactors a v,
    recommended_interventions :=
      mapInterventions (predictedCategory (a.probs v)) (topFactors a v) }

/-- Modelled from the spec: one row of `predict` (§4.7) — SchemaMismatch when
the vector fails contract validation, otherwise the prediction. -/
def predictRow (c : FeatureContract) (a : ChampionArtifact) (v : FeatureVector) :
    Except ServingErr PredictionResult :=
  if validate c v then Except.ok (makePrediction a v) else Except.error ServingErr.schemaMismatch

/-- Modelled from the spec: the batch ingestion result surfaced to the caller
(§6): {total_rows, processed_rows, error_rows, batch_id, errors}. -/
structure BatchResult where
  total_rows : Nat
  processed_rows : Nat
  error_rows : Nat
  batch_id : Nat
  errors : List (Nat × ServingErr)
  deriving DecidableEq

/-- Modelled from the spec: the per-row batch scan (§4.7, §7) — each row is
predicted independently; a failing row is recorded with its index and skipped,
the remaining rows are still processed.  Returns (processed count, error
count, error list). -/
def runBatch (c : FeatureContract) (a : ChampionArtifact) (idx : Nat) :
    List FeatureVector → Nat × Nat × List (Nat × ServingErr)
  | [] => (0, 0, [])
  | v :: rest =>
    match predictRow c a v with
    | Except.ok _ =>
      ((runBatch c a (idx + 1) rest).1 + 1, (runBatch c a (idx + 1) rest).2.1,
        (runBatch c a (idx + 1) rest).2.2)
    | Except.error e =>
      ((runBatch c a (idx + 1) rest).1, (runBatch c a (idx + 1) rest).2.1 + 1,
        (idx, e) :: (runBatch c a (idx + 1) rest).2.2)

/-- Modelled from the spec: `predict` on a single vector (§4.7) —
ModelUnavailable when the store has no current artifact. -/
def predictOne (c : FeatureContract) (s : ArtifactStore) (v : FeatureVector) :
    Except ServingErr PredictionResult :=
  match s.current with
  | none => Except.error ServingErr.modelUnavailable
  | some a => predictRow c a v

/-- Modelled from the spec: `predict` on a batch (§4.7) — ModelUnavailable when
the store has no current artifact, otherwise a per-row partial-success
report. -/
def predictBatch (c : FeatureContract) (s : ArtifactStore) (batch : List FeatureVector) :
    Except ServingErr BatchResult :=
  match s.current with
  | none => Except.error ServingErr.modelUnavailable
  | some a =>
    Except.ok
      { total_rows := batch.length,
        processed_rows := (runBatch c a 0 batch).1,
        error_rows := (runBatch c a 0 batch).2.1,
        batch_id := s.lastVersion,
        errors := (runBatch c a 0 batch).2.2 }

/-- Modelled from the spec: the DriftMonitor threshold rule (§4.5) — drifting
when accuracy < 0.70 or roc_auc < 0.70 (0.70 spelled `mkRat 7 10`). -/
def belowThresholds (r : EvaluationReport) : Bool :=
  decide (r.accuracy < mkRat 7 10) || decide (r.roc_auc < mkRat 7 10)

/-- Modelled from the spec: the two event kinds DriftMonitor reacts to (§4.5):
a monitoring cycle recomputing an EvaluationReport, and a champion promotion
carrying its promotion-time EvaluationReport. -/
inductive DriftEvent
  | monitorCycle (r : EvaluationReport)
  | promotion (r : EvaluationReport)
  deriving DecidableEq

/-- Modelled from the spec: the DriftMonitor state machine step (§4.5) — a
monitoring cycle whose report trips a threshold moves to Drifting, and the
flag returns to Healthy only on a promotion whose metrics clear both
thresholds; any other event leaves the state unchanged. -/
def driftStep (drifting : Bool) (e : DriftEvent) : Bool :=
  match e with
  | DriftEvent.monitorCycle r => if belowThresholds r then true else drifting
  | DriftEvent.promotion r => if belowThresholds r then drifting else false

/-- The drift flag after a sequence of events, starting Healthy. -/
def driftRun (events : List DriftEvent) : Bool :=
  events.foldl driftStep false

/-- The EvaluationReport computed by an event. -/
def reportOf : DriftEvent → EvaluationReport
  | DriftEvent.monitorCycle r => r
  | DriftEvent.promotion r => r

/-- The last EvaluationReport computed over a sequence of events. -/
def lastReport (events : List DriftEvent) : Option EvaluationReport :=
  events.getLast?.map reportOf

/-- The §8 drift scenario report: accuracy 0.65, roc_auc 0.80. -/
def scenarioDriftReport : EvaluationReport :=
  { accuracy := mkRat 65 100, roc_auc := mkRat 80 100 }

/-- A report clearing both drift thresholds. -/
def healthyReport : EvaluationReport :=
  { accuracy := mkRat 90 100, roc_auc := mkRat 90 100 }

/-- A concrete two-feature contract used to exercise the serving pipeline. -/
def demoContract : FeatureContract :=
  [{ name := "attendance_pct", lo := 0, hi := mkRat 100 1 },
   { name := "study_hours", lo := 0, hi := mkRat 100 1 }]

/-- A concrete candidate model used to exercise training and promotion. -/
def demoCandidate : CandidateModel :=
  { model_name := "demo", probs := fun _ => { high := mkRat 1 4, medium := mkRat 1 4, atRisk := mkRat 1 2 },
    contrib := fun _ x => x, hiThresh := mkRat 1 2, medThresh := mkRat 1 5,
    report := rep2, trained_at := 0 }

/-- The concrete champion artifact produced by promoting `demoCandidate` into
the empty store. -/
def demoArtifact : ChampionArtifact :=
  { model_name := "demo", model_version := 1,
    probs := fun _ => { high := mkRat 1 4, medium := mkRat 1 4, atRisk := mkRat 1 2 },
    contrib := fun _ x => x, hiThresh := mkRat 1 2, medThresh := mkRat 1 5,
    report := rep2, trained_at := 0 }

/-- A store currently serving `demoArtifact`. -/
def demoStore : ArtifactStore := { current := some demoArtifact, lastVersion := 1 }

/-- A concrete batch: a row satisfying `demoContract` followed by a row that
misses the required feature `attendance_pct`. -/
def demoBatch : List FeatureVector :=
  [[("attendance_pct", mkRat 90 1), ("study_hours", mkRat 5 1)],
   [("study_hours", mkRat 5 1)]]

/-- A concrete single-feature vector for the attribution witness. -/
def demoVec : FeatureVector := [("attendance_pct", mkRat 90 1)]

/-- The factor attribution the engine produces for `demoVec`. -/
def demoFactor : FactorAttribution :=
  { feature := "attendance_pct", value := mkRat 90 1, contribution := mkRat 90 1,
    impact := Impact.HIGH }

/-- Browser localStorage slice touched by the axios client
(src/frontend/src/api/client.js): the `access_token` and `user` keys; `none`
means the key is absent. -/
structure BrowserStorage where
  access_token : Option String
  user : Option String
  deriving DecidableEq

/-- Outcome of the axios response-error interceptor: the storage afterwards,
the location assigned to `window.location.href` (if any), and whether the
error is propagated with `Promise.reject`. -/
structure InterceptorOutcome where
  storage : BrowserStorage
  redirect : Option String
  rejected : Bool
  deriving DecidableEq

/-- Shallow embedding of the response interceptor of
src/frontend/src/api/client.js (lines 20-30): when the error's response
status is 401 it removes `access_token` and `user` from localStorage and
navigates to /login; every error is passed on with `Promise.reject`.  A
`none` status models an error that carries no response. -/
def responseInterceptor (status : Option Nat) (st : BrowserStorage) : InterceptorOutcome :=
  if status = some 401 then
    { storage := { access_token := none, user := none },
      redirect := some "/login", rejected := true }
  else
    { storage := st, redirect := none, rejected := true }

/-- State held by the auth reducer of
src/frontend/src/context/AuthContext.jsx; the JS `user` object is represented
by a string payload, null/undefined by `none`. -/
structure AuthState where
  user : Option String
  token : Option String
  isAuthenticated : Bool
  deriving DecidableEq

/-- Actions dispatched to `authReducer`: LOGIN carries the payload's `token`
and `user` (arbitrary JS values, possibly null), LOGOUT carries nothing, and
any other action type falls to the reducer's default branch. -/
inductive AuthAction
  | login (token : Option String) (user : Option String)
  | logout
  | other (t : String)
  deriving DecidableEq

/-- Shallow embedding of `initialState` in AuthContext.jsx (lines 5-9). -/
def initialState : AuthState := { user := none, token := none, isAuthenticated := false }

/-- Shallow embedding of `authReducer` in AuthContext.jsx (lines 11-24). -/
def authReducer (s : AuthState) (a : AuthAction) : AuthState :=
  match a with
  | AuthAction.login token user => { user := user, token := token, isAuthenticated := true }
  | AuthAction.logout => initialState
  | AuthAction.other _ => s

/-- The auth state reached from the initial state by a sequence of actions. -/
def runAuth (acts : List AuthAction) : AuthState :=
  acts.foldl authReducer initialState

/-- An action whose LOGIN payload (if it is one) carries non-null token and
user. -/
def goodAction : AuthAction → Bool
  | AuthAction.login t u => t.isSome && u.isSome
  | _ => true

/-- Rendered outcome of the RiskBadge component
(src/frontend/src/components/RiskBadge.jsx): the dash placeholder span, a
badge span with a CSS class string and label, or a badge span whose className
is the render-time string coercion of a value the `styles` object literal
inherits from Object.prototype (named by `propName`). -/
inductive RenderedBadge
  | dash
  | badge (style : String) (label : String)
  | badgeInherited (propName : String) (label : String)
  deriving DecidableEq

/-- Own properties of the `styles` object literal in RiskBadge.jsx
(lines 4-8). -/
def stylesOwn (c : String) : Option String :=
  if c = "High" then some "badge-high"
  else if c = "Medium" then some "badge-medium"
  else if c = "At Risk" then some "badge-risk"
  else none

/-- Property names a plain JS object literal inherits from Object.prototype;
looking any of them up on `styles` yields a truthy non-string value (a
function, or Object.prototype itself for `__proto__`). -/
def protoProps : List String :=
  ["constructor", "toString", "toLocaleString", "valueOf", "hasOwnProperty",
   "isPrototypeOf", "propertyIsEnumerable", "__proto__", "__defineGetter__",
   "__defineSetter__", "__lookupGetter__", "__lookupSetter__"]

/-- Result of the JS member lookup `styles[category]`: one of the object's
own string values, a truthy value inherited from Object.prototype, or
undefined. -/
inductive StylesValue
  | own (s : String)
  | inherited (propName : String)
  | undef
  deriving DecidableEq

/-- Shallow embedding of the JS lookup `styles[category]` in RiskBadge.jsx,
including the prototype chain: own properties first, then the members
inherited from Object.prototype, otherwise undefined. -/
def styles (c : String) : StylesValue :=
  match stylesOwn c with
  | some s => StylesValue.own s
  | none => if c ∈ protoProps then StylesValue.inherited c else StylesValue.undef

/-- Shallow embedding of RiskBadge (RiskBadge.jsx lines 1-15): in JS,
`!category` is true for null/undefined and also for the empty string, and
renders the dash placeholder; otherwise the className is
`styles[category] || 'badge-medium'` — an own style string or a truthy
inherited Object.prototype value short-circuits the `||`, and only an
undefined lookup falls back to badge-medium. -/
def riskBadge (category : Option String) : RenderedBadge :=
  match category with
  | none => RenderedBadge.dash
  | some c =>
    if c = "" then RenderedBadge.dash
    else
      match styles c with
      | StylesValue.own s => RenderedBadge.badge s c
      | StylesValue.inherited p => RenderedBadge.badgeInherited p c
      | StylesValue.undef => RenderedBadge.badge "badge-medium" c

lemma dominates_refl (p : Nat × EvaluationReport) : dominates p p :=
  Or.inr ⟨rfl, Or.inr ⟨rfl, Nat.le_refl _⟩⟩

lemma dominates_trans {a b c : Nat × EvaluationReport}
    (h1 : dominates a b) (h2 : dominates b c) : dominates a c := by
  rcases h1 with h1 | ⟨e1, h1⟩ <;> rcases h2 with h2 | ⟨e2, h2⟩
  · exact Or.inl (lt_trans h2 h1)
  · exact Or.inl (by rw [← e2]; exact h1)
  · exact Or.inl (by rw [e1]; exact h2)
  · refine Or.inr ⟨e1.trans e2, ?_⟩
    rcases h1 with h1 | ⟨f1, h1⟩ <;> rcases h2 with h2 | ⟨f2, h2⟩
    · exact Or.inl (lt_trans h2 h1)
    · exact Or.inl (by rw [← f2]; exact h1)
    · exact Or.inl (by rw [f1]; exact h2)
    · exact Or.inr ⟨f1.trans f2, Nat.le_trans h1 h2⟩

lemma dominates_of_beats {r : EvaluationReport} {b : Nat × EvaluationReport}
    (i : Nat) (h : beats r b.2 = true) : dominates (i, r) b := by
  simp only [beats, Bool.or_eq_true, Bool.and_eq_true, decide_eq_true_eq] at h
  rcases h with h | ⟨he, ha⟩
  · exact Or.inl h
  · exact Or.inr ⟨he, Or.inl ha⟩

lemma dominates_of_not_beats {r : EvaluationReport} {b : Nat × EvaluationReport}
    {i : Nat} (h : beats r b.2 = false) (hi : b.1 ≤ i) : dominates b (i, r) := by
  simp only [beats, Bool.or_eq_false_iff, Bool.and_eq_false_iff, decide_eq_false_iff_not,
    not_lt] at h
  obtain ⟨hf1, hrest⟩ := h
  rcases lt_or_eq_of_le hf1 with hlt | heq
  · exact Or.inl hlt
  · refine Or.inr ⟨heq.symm, ?_⟩
    rcases hrest with hne | hacc
    · exact absurd heq (by simpa [eq_comm] using hne)
    · rcases lt_or_eq_of_le (not_lt.mp (by simpa using hacc)) with h2 | h2
      · exact Or.inl h2
      · exact Or.inr ⟨h2.symm, hi⟩

lemma selectFrom_spec (l : List EvaluationReport) :
    ∀ (idx : Nat) (best : Nat × EvaluationReport), best.1 < idx →
      dominates (selectFrom idx best l) best ∧
      (∀ k r, l.get? k = some r → dominates (selectFrom idx best l) (idx + k, r)) ∧
      (selectFrom idx best l = best ∨
        ∃ k r, l.get? k = some r ∧ selectFrom idx best l = (idx + k, r)) := by
  induction l with
  | nil =>
    intro idx best _
    refine ⟨dominates_refl best, ?_, Or.inl rfl⟩
    intro k r hk
    cases k <;> exact absurd hk (by simp)
  | cons r t ih =>
    intro idx best hb
    by_cases hbeat : beats r best.2 = true
    · have hstep : selectFrom idx best (r :: t) = selectFrom (idx + 1) (idx, r) t := by
        simp [selectFrom, hbeat]
      obtain ⟨ihd, ihall, ihprov⟩ := ih (idx + 1) (idx, r) (Nat.lt_succ_self idx)
      rw [hstep]
      refine ⟨dominates_trans ihd (dominates_of_beats idx hbeat), ?_, ?_⟩
      · intro k q hk
        match k, hk with
        | 0, hk =>
          obtain rfl : r = q := by simpa using hk
          exact ihd
        | Nat.succ j, hk =>
          have h := ihall j q (by simpa using hk)
          rw [show idx + (j + 1) = idx + 1 + j from by omega]
          exact h
      · rcases ihprov with hp | ⟨k, q, hk, hp⟩
        · exact Or.inr ⟨0, r, rfl, by simpa using hp⟩
        · refine Or.inr ⟨k + 1, q, by simpa using hk, ?_⟩
          rw [show idx + (k + 1) = idx + 1 + k from by omega]
          exact hp
    · have hfalse : beats r best.2 = false := by simpa using hbeat
      have hstep : selectFrom idx best (r :: t) = selectFrom (idx + 1) best t := by
        simp [selectFrom, hfalse]
      obtain ⟨ihd, ihall, ihprov⟩ := ih (idx + 1) best (Nat.lt_succ_of_lt hb)
      rw [hstep]
      refine ⟨ihd, ?_, ?_⟩
      · intro k q hk
        match k, hk with
        | 0, hk =>
          obtain rfl : r = q := by simpa using hk
          exact dominates_trans ihd (dominates_of_not_beats hfalse (Nat.le_of_lt hb))
        | Nat.succ j, hk =>
          have h := ihall j q (by simpa using hk)
          rw [show idx + (j + 1) = idx + 1 + j from by omega]
          exact h
      · rcases ihprov with hp | ⟨k, q, hk, hp⟩
        · exact Or.inl hp
        · refine Or.inr ⟨k + 1, q, by simpa using hk, ?_⟩
          rw [show idx + (k + 1) = idx + 1 + k from by omega]
          exact hp

/-- C1: for every candidate set given to ChampionSelector, the selected
champion is one of the candidates and is maximal under the ordering
`f1_at_risk` descending, then `accuracy` descending, then earliest
configuration index; and on the scenario set with F1_at_risk
[0.81, 0.85, 0.85, 0.70] and accuracies [0.90, 0.88, 0.92, 0.95] the champion
is the candidate at index 2. -/
theorem championSelector_maximal_and_scenario :
    (∀ (reports : List EvaluationReport) (p : Nat × EvaluationReport),
        selectChampion reports = some p →
          reports.get? p.1 = some p.2 ∧
          ∀ i r, reports.get? i = some r → dominates p (i, r)) ∧
    selectChampion scenarioReports = some (2, rep2) := by
  constructor
  · intro reports p h
    match reports, h with
    | [], h => exact absurd h (by simp [selectChampion])
    | r :: t, h =>
      have hp : p = selectFrom 1 (0, r) t := by
        simpa [selectChampion] using h.symm
      obtain ⟨hd, hall, hprov⟩ := selectFrom_spec t 1 (0, r) Nat.one_pos
      subst hp
      constructor
      · rcases hprov with he | ⟨k, q, hk, he⟩
        · rw [he]
          rfl
        · rw [he]
          rw [show (1 + k : Nat) = k + 1 from by omega]
          exact hk
      · intro i q hi
        match i, hi with
        | 0, hi =>
          obtain rfl : r = q := by simpa using hi
          exact hd
        | Nat.succ j, hi =>
          have h := hall j q (by simpa using hi)
          have h2 : (1 + j : Nat) = j.succ := by omega
          rw [← h2]
          exact h
  · decide

/-- Witness for C1: applying the theorem to the scenario set shows the
selected champion (index 2) dominates the tied candidate at index 1. -/
theorem championSelector_maximal_witness : dominates (2, rep2) (1, rep1) := by
  have h := championSelector_maximal_and_scenario.1 scenarioReports (2, rep2) (by decide)
  exact h.2 1 rep1 (by decide)

lemma promoteAll_version_lt :
    ∀ (l : List CandidateModel) (st : ArtifactStore) (v : Nat),
      v ∈ promoteAll st l → st.lastVersion < v := by
  intro l
  induction l with
  | nil =>
    intro st v hv
    simp [promoteAll] at hv
  | cons c t ih =>
    intro st v hv
    simp only [promoteAll, List.mem_cons] at hv
    rcases hv with rfl | hv
    · exact Nat.lt_succ_self _
    · exact Nat.lt_of_succ_lt (ih (promote st c).1 v hv)

lemma promoteAll_pairwise :
    ∀ (l : List CandidateModel) (st : ArtifactStore),
      List.Pairwise (fun a b => a < b) (promoteAll st l) := by
  intro l
  induction l with
  | nil =>
    intro st
    simp [promoteAll]
  | cons c t ih =>
    intro st
    simp only [promoteAll]
    refine List.Pairwise.cons ?_ (ih _)
    intro b hb
    exact promoteAll_version_lt t (promote st c).1 b hb

/-- C6: over any sequence of successful promotions the assigned artifact
versions are strictly increasing in order (so the (n+1)-th exceeds the n-th)
and no version is ever reused. -/
theorem promotion_versions_strict_mono (s : ArtifactStore) (cs : List CandidateModel) :
    List.Pairwise (fun a b => a < b) (promoteAll s cs) ∧ (promoteAll s cs).Nodup :=
  ⟨promoteAll_pairwise cs s,
    (promoteAll_pairwise cs s).imp fun h => Nat.ne_of_lt h⟩

/-- C5: when every candidate's `f1_at_risk` is below the configured floor,
ChampionSelector fails with NoViableCandidate and the training run leaves the
ArtifactStore — in particular its current ChampionArtifact — unchanged. -/
theorem noViableCandidate_preserves_store (floor : ℚ) (reports : List EvaluationReport)
    (mk : Nat × EvaluationReport → CandidateModel) (s : ArtifactStore)
    (h : ∀ r ∈ reports, r.f1_at_risk < floor) :
    selectWithFloor floor reports = Except.error SelectErr.noViableCandidate ∧
    runTraining floor reports mk s = (s, Except.error SelectErr.noViableCandidate) := by
  have hall : (reports.all fun r => decide (r.f1_at_risk < floor)) = true := by
    rw [List.all_eq_true]
    intro r hr
    simpa using h r hr
  have hsel : selectWithFloor floor reports = Except.error SelectErr.noViableCandidate := by
    simp [selectWithFloor, hall]
  exact ⟨hsel, by simp [runTraining, hsel]⟩

/-- Witness for C5: a single candidate with f1_at_risk 0.70 under floor 0.75
yields NoViableCandidate and leaves the empty store untouched. -/
theorem noViableCandidate_preserves_store_witness :
    runTraining (mkRat 3 4) [rep3] (fun _ => demoCandidate) emptyStore =
      (emptyStore, Except.error SelectErr.noViableCandidate) :=
  (noViableCandidate_preserves_store (mkRat 3 4) [rep3] (fun _ => demoCandidate)
    emptyStore (by decide)).2

/-- C2 counterexample: after a monitoring cycle whose report trips the
threshold followed by one whose report clears both thresholds, the drift flag
is still raised although the last computed EvaluationReport is healthy — so
`is_drifting` is not equivalent to the last report being below threshold. -/
theorem driftMonitor_iff_counterexample :
    driftRun [DriftEvent.monitorCycle scenarioDriftReport,
        DriftEvent.monitorCycle healthyReport] = true ∧
    lastReport [DriftEvent.monitorCycle scenarioDriftReport,
        DriftEvent.monitorCycle healthyReport] = some healthyReport ∧
    belowThresholds healthyReport = false := by
  decide

/-- C2 (amended): the drift flag is raised by any monitoring cycle whose
report has accuracy < 0.70 or roc_auc < 0.70; once raised it is cleared only
by a promotion whose metrics clear both thresholds (a healthy monitoring
report alone does not clear it); and the scenario report
{accuracy 0.65, roc_auc 0.80} raises the warning. -/
theorem driftMonitor_latching_spec :
    (∀ (evs : List DriftEvent) (r : EvaluationReport), belowThresholds r = true →
        driftRun (evs ++ [DriftEvent.monitorCycle r]) = true) ∧
    (∀ (evs : List DriftEvent) (e : DriftEvent), driftRun evs = true →
        driftRun (evs ++ [e]) = false →
        ∃ r, e = DriftEvent.promotion r ∧ belowThresholds r = false) ∧
    (belowThresholds scenarioDriftReport = true ∧
      driftRun [DriftEvent.monitorCycle scenarioDriftReport] = true) := by
  refine ⟨?_, ?_, by decide⟩
  · intro evs r hr
    simp [driftRun, List.foldl_append, driftStep, hr]
  · intro evs e hdrift hclear
    simp only [driftRun, List.foldl_append] at hclear
    rw [show List.foldl driftStep false evs = driftRun evs from rfl, hdrift] at hclear
    cases e with
    | monitorCycle r =>
      by_cases hb : belowThresholds r = true <;> simp [driftStep, hb] at hclear
    | promotion r =>
      by_cases hb : belowThresholds r = true
      · simp [driftStep, hb] at hclear
      · exact ⟨r, rfl, by simpa using hb⟩

/-- Witness for C2: the scenario report raises the drift warning. -/
theorem driftMonitor_latching_witness :
    driftRun [DriftEvent.monitorCycle scenarioDriftReport] = true :=
  driftMonitor_latching_spec.1 [] scenarioDriftReport (by decide)

/-- C3: calling predict (on a single vector or a batch) while the
ArtifactStore has no current artifact fails with ModelUnavailable instead of
returning a prediction. -/
theorem predict_without_promotion_fails (c : FeatureContract) (s : ArtifactStore)
    (v : FeatureVector) (batch : List FeatureVector) (h : s.current = none) :
    predictOne c s v = Except.error ServingErr.modelUnavailable ∧
    predictBatch c s batch = Except.error ServingErr.modelUnavailable := by
  constructor
  · simp [predictOne, h]
  · simp [predictBatch, h]

/-- Witness for C3: predicting against the never-promoted empty store. -/
theorem predict_without_promotion_witness :
    predictOne demoContract emptyStore demoVec = Except.error ServingErr.modelUnavailable ∧
    predictBatch demoContract emptyStore demoBatch =
      Except.error ServingErr.modelUnavailable :=
  predict_without_promotion_fails demoContract emptyStore demoVec demoBatch rfl

lemma runBatch_spec (c : FeatureContract) (a : ChampionArtifact) :
    ∀ (l : List FeatureVector) (idx : Nat),
      (runBatch c a idx l).1 = (l.filter fun v => validate c v).length ∧
      (runBatch c a idx l).2.1 = (l.filter fun v => !validate c v).length ∧
      (runBatch c a idx l).1 + (runBatch c a idx l).2.1 = l.length ∧
      (runBatch c a idx l).2.2.length = (runBatch c a idx l).2.1 ∧
      (∀ k r, l.get? k = some r → validate c r = false →
          (idx + k, ServingErr.schemaMismatch) ∈ (runBatch c a idx l).2.2) ∧
      (∀ i e, (i, e) ∈ (runBatch c a idx l).2.2 →
          ∃ k r, l.get? k = some r ∧ i = idx + k ∧ validate c r = false ∧
            e = ServingErr.schemaMismatch) := by
  intro l
  induction l with
  | nil =>
    intro idx
    refine ⟨rfl, rfl, rfl, rfl, ?_, ?_⟩
    · intro k r hk
      cases k <;> exact absurd hk (by simp [List.get?])
    · intro i e hm
      exact absurd hm (by simp [runBatch])
  | cons v rest ih =>
    intro idx
    obtain ⟨ih1, ih2, ih3, ih4, ih5, ih6⟩ := ih (idx + 1)
    by_cases hv : validate c v = true
    · have hstep : runBatch c a idx (v :: rest) =
          ((runBatch c a (idx + 1) rest).1 + 1, (runBatch c a (idx + 1) rest).2.1,
            (runBatch c a (idx + 1) rest).2.2) := by
        simp [runBatch, predictRow, hv]
      rw [hstep]
      refine ⟨by simp [List.filter, hv, ih1], by simp [List.filter, hv, ih2],
        by simp; omega, ih4, ?_, ?_⟩
      · intro k r hk hval
        match k, hk with
        | 0, hk =>
          obtain rfl : v = r := by simpa using hk
          exact absurd hv (by simp [hval])
        | Nat.succ j, hk =>
          have h := ih5 j r (by simpa using hk) hval
          rw [show idx + (j + 1) = idx + 1 + j from by omega]
          exact h
      · intro i e hm
        obtain ⟨k, r, hk, hi, hval, he⟩ := ih6 i e hm
        exact ⟨k + 1, r, hk, by omega, hval, he⟩
    · have hv' : validate c v = false := by simpa using hv
      have hstep : runBatch c a idx (v :: rest) =
          ((runBatch c a (idx + 1) rest).1, (runBatch c a (idx + 1) rest).2.1 + 1,
            (idx, ServingErr.schemaMismatch) :: (runBatch c a (idx + 1) rest).2.2) := by
        simp [runBatch, predictRow, hv']
      rw [hstep]
      refine ⟨by simp [List.filter, hv', ih1], by simp [List.filter, hv', ih2],
        by simp; omega, by simp [ih4], ?_, ?_⟩
      · intro k r hk hval
        match k, hk with
        | 0, hk =>
          exact List.mem_cons_self _ _
        | Nat.succ j, hk =>
          have h := ih5 j r (by simpa using hk) hval
          rw [show idx + (j + 1) = idx + 1 + j from by omega]
          exact List.mem_cons_of_mem _ h
      · intro i e hm
        rcases List.mem_cons.mp hm with he | hm
        · obtain ⟨rfl, rfl⟩ : i = idx ∧ e = ServingErr.schemaMismatch := by
            simpa [Prod.ext_iff] using he
          exact ⟨0, v, rfl, by omega, hv', rfl⟩
        · obtain ⟨k, r, hk, hi, hval, hee⟩ := ih6 i e hm
          exact ⟨k + 1, r, hk, by omega, hval, hee⟩

/-- C4: with a current artifact, a batch is processed row by row: the
response is a partial-success report whose totals add up, a row failing
FeatureContract validation is counted in `error_rows` and reported in
`errors` under its index with SchemaMismatch, and every valid row is
processed and never appears in `errors`. -/
theorem predictBatch_row_isolation (c : FeatureContract) (s : ArtifactStore)
    (a : ChampionArtifact) (batch : List FeatureVector) (h : s.current = some a) :
    ∃ res, predictBatch c s batch = Except.ok res ∧
      res.total_rows = batch.length ∧
      res.processed_rows = (batch.filter fun v => validate c v).length ∧
      res.error_rows = (batch.filter fun v => !validate c v).length ∧
      res.processed_rows + res.error_rows = batch.length ∧
      res.errors.length = res.error_rows ∧
      (∀ k r, batch.get? k = some r → validate c r = false →
          (k, ServingErr.schemaMismatch) ∈ res.errors) ∧
      (∀ k r, batch.get? k = some r → validate c r = true →
          ∀ e, (k, e) ∉ res.errors) := by
  obtain ⟨h1, h2, h3, h4, h5, h6⟩ := runBatch_spec c a batch 0
  have hps : predictBatch c s batch = Except.ok
      { total_rows := batch.length, processed_rows := (runBatch c a 0 batch).1,
        error_rows := (runBatch c a 0 batch).2.1, batch_id := s.lastVersion,
        errors := (runBatch c a 0 batch).2.2 } := by
    simp [predictBatch, h]
  refine ⟨_, hps, rfl, h1, h2, h3, h4, ?_, ?_⟩
  · intro k r hk hval
    have := h5 k r hk hval
    simpa using this
  · intro k r hk hval e hm
    obtain ⟨k', r', hk', hi, hval', _⟩ := h6 k e hm
    obtain rfl : k' = k := by omega
    rw [hk] at hk'
    obtain rfl : r = r' := by simpa using hk'
    exact absurd hval (by simp [hval'])

/-- Witness for C4: on the concrete store and two-row batch, the row missing
`attendance_pct` is reported at index 1 with SchemaMismatch while the valid
row is processed. -/
theorem predictBatch_row_isolation_witness :
    ∃ res, predictBatch demoContract demoStore demoBatch = Except.ok res ∧
      res.total_rows = 2 ∧ res.processed_rows = 1 ∧ res.error_rows = 1 ∧
      (1, ServingErr.schemaMismatch) ∈ res.errors := by
  obtain ⟨res, h1, h2, h3, h4, _, _, h7, _⟩ :=
    predictBatch_row_isolation demoContract demoStore demoArtifact demoBatch rfl
  refine ⟨res, h1, ?_, ?_, ?_, ?_⟩
  · rw [h2]; decide
  · rw [h3]; decide
  · rw [h4]; decide
  · exact h7 1 [("study_hours", mkRat 5 1)] (by decide) (by decide)

/-- C7: AttributionEngine is a pure function of (artifact, vector): repeated
calls return the identical list, the list keeps at most the top 3 factors,
it is ordered by absolute contribution descending, and every factor's
HIGH/MEDIUM/LOW bucket is determined by the artifact's own thresholds applied
to that factor's absolute contribution. -/
theorem attribution_deterministic_spec (a : ChampionArtifact) (v : FeatureVector) :
    topFactors a v = topFactors a v ∧
    (topFactors a v).length ≤ 3 ∧
    List.Sorted factorOrder (topFactors a v) ∧
    ∀ f ∈ topFactors a v, f.impact = bucketOf a (abs f.contribution) := by
  refine ⟨rfl, ?_, ?_, ?_⟩
  · simp only [topFactors, List.length_take]
    exact Nat.min_le_left _ _
  · exact List.Pairwise.sublist (List.take_sublist 3 _)
      (List.sorted_insertionSort factorOrder _)
  · intro f hf
    have hf2 : f ∈ List.insertionSort factorOrder
        (v.map fun p =>
          { feature := p.1, value := p.2, contribution := a.contrib p.1 p.2,
            impact := bucketOf a (abs (a.contrib p.1 p.2)) }) :=
      List.take_subset 3 _ hf
    rw [List.mem_insertionSort] at hf2
    obtain ⟨p, _, rfl⟩ := List.mem_map.mp hf2
    rfl

/-- Witness for C7: the factor computed for the concrete vector is a member
of the engine's output and carries the bucket determined by the artifact's
thresholds. -/
theorem attribution_deterministic_witness :
    demoFactor.impact = bucketOf demoArtifact (abs demoFactor.contribution) :=
  (attribution_deterministic_spec demoArtifact demoVec).2.2.2 demoFactor (by decide)

/-- C8: the axios response interceptor removes `access_token` and `user` and
redirects to /login exactly on a 401 response status; on any other error it
leaves the stored credentials unchanged and sets no redirect; in both cases
the error is propagated rejected to the caller. -/
theorem client_response_interceptor_spec (status : Option Nat) (st : BrowserStorage) :
    (status = some 401 →
        responseInterceptor status st =
          { storage := { access_token := none, user := none },
            redirect := some "/login", rejected := true }) ∧
    (status ≠ some 401 →
        responseInterceptor status st =
          { storage := st, redirect := none, rejected := true }) := by
  constructor
  · intro h
    simp [responseInterceptor, h]
  · intro h
    simp [responseInterceptor, h]

/-- Witness for C8: a 401 clears the stored credentials and redirects, a 500
leaves them untouched. -/
theorem client_response_interceptor_witness :
    responseInterceptor (some 401) { access_token := some "tok", user := some "alice" } =
      { storage := { access_token := none, user := none },
        redirect := some "/login", rejected := true } ∧
    responseInterceptor (some 500) { access_token := some "tok", user := some "alice" } =
      { storage := { access_token := some "tok", user := some "alice" },
        redirect := none, rejected := true } :=
  ⟨(client_response_interceptor_spec (some 401)
      { access_token := some "tok", user := some "alice" }).1 rfl,
   (client_response_interceptor_spec (some 500)
      { access_token := some "tok", user := some "alice" }).2 (by decide)⟩

/-- C9 counterexample: the reducer sets `isAuthenticated := true` on LOGIN
regardless of the payload, so dispatching LOGIN with a null token and user —
which `login(null, null)` can do, since AuthContext.jsx does not guard the
payload — reaches a state where `isAuthenticated` is true while neither
`user` nor `token` is set, refuting the claimed invariant. -/
theorem authReducer_invariant_counterexample :
    (runAuth [AuthAction.login none none]).isAuthenticated = true ∧
    (runAuth [AuthAction.login none none]).user = none ∧
    (runAuth [AuthAction.login none none]).token = none := by
  decide

/-- C9 (amended): LOGIN yields exactly {user: payload.user, token:
payload.token, isAuthenticated: true}, LOGOUT yields the initial state, any
other action leaves the state unchanged, and — provided every dispatched
LOGIN payload carries a non-null token and user — every reachable state has
`isAuthenticated` true exactly when both `user` and `token` are set. -/
theorem authReducer_transitions_spec :
    (∀ (s : AuthState) (t u : Option String),
        authReducer s (AuthAction.login t u) =
          { user := u, token := t, isAuthenticated := true }) ∧
    (∀ s : AuthState, authReducer s AuthAction.logout = initialState) ∧
    (∀ (s : AuthState) (n : String), authReducer s (AuthAction.other n) = s) ∧
    (∀ acts : List AuthAction, (∀ a ∈ acts, goodAction a = true) →
        (runAuth acts).isAuthenticated =
          ((runAuth acts).user.isSome && (runAuth acts).token.isSome)) := by
  refine ⟨fun _ _ _ => rfl, fun _ => rfl, fun _ _ => rfl, ?_⟩
  have key : ∀ (l : List AuthAction) (s : AuthState),
      (∀ a ∈ l, goodAction a = true) →
      s.isAuthenticated = (s.user.isSome && s.token.isSome) →
      (l.foldl authReducer s).isAuthenticated =
        ((l.foldl authReducer s).user.isSome && (l.foldl authReducer s).token.isSome) := by
    intro l
    induction l with
    | nil =>
      intro s _ hs
      simpa using hs
    | cons a t ih =>
      intro s hg hs
      refine ih (authReducer s a) (fun x hx => hg x (List.mem_cons_of_mem a hx)) ?_
      cases a with
      | login tk u =>
        have hgood := hg _ (List.mem_cons_self _ _)
        simp only [goodAction, Bool.and_eq_true] at hgood
        simp [authReducer, hgood.1, hgood.2]
      | logout => simp [authReducer, initialState]
      | other n => simpa [authReducer] using hs
  intro acts hgood
  exact key acts initialState hgood rfl

/-- Witness for C9: a LOGIN with concrete non-null payload keeps the
invariant. -/
theorem authReducer_transitions_witness :
    (runAuth [AuthAction.login (some "tok") (some "alice")]).isAuthenticated =
      ((runAuth [AuthAction.login (some "tok") (some "alice")]).user.isSome &&
        (runAuth [AuthAction.login (some "tok") (some "alice")]).token.isSome) :=
  authReducer_transitions_spec.2.2.2 [AuthAction.login (some "tok") (some "alice")]
    (by decide)

/-- C10 counterexample: two category strings outside {High, Medium, At Risk}
for which RiskBadge does not fall back to 'badge-medium': the empty string is
falsy in JS (`!category`) and renders the dash placeholder, and "toString"
hits a truthy value inherited from Object.prototype, so the `||` fallback
never fires and the inherited value becomes the className. -/
theorem riskBadge_fallback_counterexample :
    riskBadge (some "") = RenderedBadge.dash ∧
    riskBadge (some "") ≠ RenderedBadge.badge "badge-medium" "" ∧
    riskBadge (some "toString") = RenderedBadge.badgeInherited "toString" "toString" ∧
    riskBadge (some "toString") ≠ RenderedBadge.badge "badge-medium" "toString" := by
  decide

/-- C10 (amended): RiskBadge is total over its input: a null/undefined or
empty-string category renders the dash placeholder; the three known
categories render their matching badge styles; a category string naming a
member the `styles` object literal inherits from Object.prototype (such as
"toString" or "constructor") renders a badge whose className is that truthy
inherited value, not the fallback; and every other category string falls
back to the 'badge-medium' style rather than failing. -/
theorem riskBadge_total_spec :
    riskBadge none = RenderedBadge.dash ∧
    riskBadge (some "") = RenderedBadge.dash ∧
    riskBadge (some "High") = RenderedBadge.badge "badge-high" "High" ∧
    riskBadge (some "Medium") = RenderedBadge.badge "badge-medium" "Medium" ∧
    riskBadge (some "At Risk") = RenderedBadge.badge "badge-risk" "At Risk" ∧
    (∀ c : String, c ∈ protoProps →
        riskBadge (some c) = RenderedBadge.badgeInherited c c) ∧
    (∀ c : String, c ≠ "" → c ≠ "High" → c ≠ "Medium" → c ≠ "At Risk" →
        c ∉ protoProps →
        riskBadge (some c) = RenderedBadge.badge "badge-medium" c) := by
  refine ⟨by decide, by decide, by decide, by decide, by decide, ?_, ?_⟩
  · intro c hc
    fin_cases hc <;> decide
  · intro c h0 h1 h2 h3 h4
    simp [riskBadge, styles, stylesOwn, h0, h1, h2, h3, h4]

/-- Witness for C10: the unknown, non-inherited category "Low" falls back to
badge-medium. -/
theorem riskBadge_total_witness :
    riskBadge (some "Low") = RenderedBadge.badge "badge-medium" "Low" :=
  riskBadge_total_spec.2.2.2.2.2.2 "Low" (by decide) (by decide) (by decide)
    (by decide) (by decide)

end EduPredict
